import Mathlib

/-!
# Verification of the NixieGPSEmu firmware core

Shallow embedding of the connectivity / time-validity state machine and the
NMEA `$GPRMC` sentence emitter of `src/src/main.cpp` (the current v2.0
firmware; `src/unnamed/part_001` is the superseded v1.x revision of the same
file, whose loop the v2.0 header documents as replaced).

Modelling conventions:
* Arduino `String` byte sequences are modelled as `List Nat` of byte values;
  the ASCII strings built by the firmware are bridged via `strBytes`.
* `sprintf` conversions `%02d` / `%02X` are embedded directly (`fmt02`,
  `hex2`), matching the C semantics on the values the firmware passes.
* `millis()` is an unsigned 32-bit counter; `unsigned long` subtraction is
  `sub32` (subtraction modulo 2^32).
* `uint8_t` accumulation carries an explicit `% 256`.
* One loop invocation (`loop`) consumes one `LoopInput`: the values the
  environment would deliver on that pass (`millis()`, `WiFi.status()`,
  `gettimeofday` success and the `gmtime` fields, the reset-button level).
  Side effects on the serial lines and the network collaborators are
  reported in a `LoopOutput` record.
-/

set_option maxRecDepth 40000

namespace NixieGPS

/-! ## Decimal and hexadecimal rendering (embedding of `sprintf`) -/

/-- Decimal digits of `n`, most significant first (fuel-indexed so that the
kernel can evaluate it; `fuel = n + 1` always suffices). -/
def natDigsAux : Nat → Nat → List Char
  | 0, _ => []
  | fuel + 1, n =>
    if n < 10 then [Char.ofNat (48 + n)]
    else natDigsAux fuel (n / 10) ++ [Char.ofNat (48 + n % 10)]

/-- Decimal digits of a natural number, most significant first. -/
def natDigs (n : Nat) : List Char := natDigsAux (n + 1) n

/-- Embedding of `sprintf "%d"` on a C `int`. -/
def decStr (n : Int) : String :=
  if n < 0 then "-" ++ String.mk (natDigs n.natAbs) else String.mk (natDigs n.toNat)

/-- Embedding of `sprintf "%02d"`: zero-pad to width 2. -/
def fmt02 (n : Int) : String :=
  if 0 ≤ n ∧ n < 10 then "0" ++ decStr n else decStr n

/-- Upper-case hexadecimal digit character for `d < 16`. -/
def hexDig (d : Nat) : Char :=
  if d < 10 then Char.ofNat (48 + d) else Char.ofNat (55 + d)

/-- Embedding of `sprintf "%02X"` on a `uint8_t` value. -/
def hex2 (n : Nat) : String := String.mk [hexDig (n / 16), hexDig (n % 16)]

/-- The bytes of an ASCII string (`Arduino String` contents). -/
def strBytes (s : String) : List Nat := s.data.map Char.toNat

/-! ## Checksum codec (`calculateChecksum`, main.cpp:180-189) -/

/-- The loop body of `calculateChecksum`: running XOR over the bytes,
stopping at the first `'*'` (byte 42); the accumulator is a `uint8_t`. -/
def csAccum : Nat → List Nat → Nat
  | acc, [] => acc
  | acc, b :: rest => if b = 42 then acc else csAccum (Nat.xor acc b % 256) rest

/-- `calculateChecksum(sentence)`: XOR of `sentence[1..]` up to (excluding)
the first `'*'`, rendered `"%02X"`. The argument is the full sentence
including its leading `'$'` (byte 36), exactly as the firmware calls it. -/
def calculateChecksum (sentence : List Nat) : String :=
  hex2 (csAccum 0 (sentence.drop 1))

/-! ## Sentence formatter and emitter (`outputGPS`, main.cpp:191-209) -/

/-- The `struct tm` fields that the firmware reads from `gmtime`. -/
structure Tm where
  tm_sec : Int
  tm_min : Int
  tm_hour : Int
  tm_mday : Int
  tm_mon : Int
  tm_year : Int
deriving DecidableEq, Repr

/-- The `sprintf` in `outputGPS`: the sentence body between `$` and `*`. -/
def gprmcBody (t : Tm) : String :=
  "GPRMC," ++ fmt02 t.tm_hour ++ fmt02 t.tm_min ++ fmt02 t.tm_sec ++
  ".000,A,0000.0000,N,00000.0000,E,0.0,0.0," ++
  fmt02 t.tm_mday ++ fmt02 (t.tm_mon + 1) ++
  fmt02 (Int.tmod (t.tm_year + 1900) 100) ++ ",,"

/-- `outputGPS()`: if `gettimeofday` fails the function returns before any
byte is written (result `none`); otherwise the full line written to the GPS
serial output. -/
def outputGPS (clockOk : Bool) (t : Tm) : Option String :=
  if clockOk then
    let body := gprmcBody t
    some ("$" ++ body ++ "*" ++ calculateChecksum (strBytes ("$" ++ body)) ++ "\r\n")
  else
    none

/-! ## Time-validity tracker (`updateTimeStatus`, main.cpp:70-76) -/

/-- `updateTimeStatus()`: the new value of `timeSet`, computed from the
`gmtime` fields of the live clock. -/
def updateTimeStatus (t : Tm) : Bool := decide (t.tm_year + 1900 ≥ 2020)

/-! ## The control loop (`setup` / `checkResetButton` / `loop`, main.cpp:295-396) -/

/-- `unsigned long` (32-bit) subtraction `a - b`, as C computes it. -/
def sub32 (a b : Nat) : Nat :=
  (a % 4294967296 + (4294967296 - b % 4294967296)) % 4294967296

/-- `displayInterval` (main.cpp:57), in milliseconds: one scheduler tick. -/
def displayInterval : Nat := 1000

/-- `wifiRetryInterval` (main.cpp:63), in milliseconds. -/
def wifiRetryInterval : Nat := 30000

/-- The global mutable variables of the firmware that the control loop reads
or writes. -/
structure SysState where
  configMode : Bool
  timeSet : Bool
  servicesStarted : Bool
  lastWifiRetry : Nat
  lastDisplayUpdate : Nat
  buttonPressed : Bool
  buttonPressStart : Nat
deriving DecidableEq, Repr

/-- The environment values one `loop()` invocation observes. -/
structure LoopInput where
  /-- The value `millis()` returns on this pass (a `uint32_t` counter). -/
  millis : Nat
  /-- Whether `WiFi.status() == WL_CONNECTED` on this pass. -/
  wifiConnected : Bool
  /-- Whether `gettimeofday` succeeds on this pass. -/
  clockOk : Bool
  /-- The `gmtime` fields of the current clock value. -/
  time : Tm
  /-- Whether `digitalRead(RESET_BUTTON_PIN) == LOW` on this pass. -/
  buttonLow : Bool
deriving DecidableEq, Repr

/-- The externally visible effects of one `loop()` invocation. -/
structure LoopOutput where
  /-- The NMEA line written to the GPS serial output (`Serial2`), if any. -/
  gpsEmit : Option String := none
  /-- Whether `WiFi.begin` was called (a new connection attempt). -/
  wifiBeginCalled : Bool := false
  /-- Whether `configTime` was called (one-shot NTP sync request). -/
  configTimeCalled : Bool := false
  /-- Whether `MDNS.begin` was called (service-discovery registration). -/
  mdnsBeginCalled : Bool := false
  /-- Whether `MDNS.end` was called (registration withdrawn). -/
  mdnsEndCalled : Bool := false
deriving DecidableEq, Repr

/-- `checkResetButton()` (main.cpp:324-338): returns the updated state and
whether a config-clearing device restart was triggered. -/
def checkResetButton (s : SysState) (inp : LoopInput) : SysState × Bool :=
  if inp.buttonLow then
    if ¬s.buttonPressed then
      ({ s with buttonPressed := true, buttonPressStart := inp.millis }, false)
    else if sub32 inp.millis s.buttonPressStart ≥ 2000 then
      (s, true)
    else
      (s, false)
  else
    ({ s with buttonPressed := false }, false)

/-- The display-timer update of the config-portal branch (main.cpp:345-350). -/
def apTick (s : SysState) (inp : LoopInput) : SysState :=
  if sub32 inp.millis s.lastDisplayUpdate > displayInterval then
    { s with lastDisplayUpdate := inp.millis }
  else
    s

/-- The network-collaborator calls of one station-mode pass. -/
structure NetEffect where
  mdnsEnd : Bool
  wifiBegin : Bool
  svcInit : Bool
deriving DecidableEq, Repr

/-- Station-mode connection handling (main.cpp:352-381): service teardown and
periodic retry while disconnected, one-shot NTP/mDNS start on connection. -/
def stationNet (s : SysState) (inp : LoopInput) : SysState × NetEffect :=
  if inp.wifiConnected then
    if s.servicesStarted then
      (s, ⟨false, false, false⟩)
    else
      ({ s with servicesStarted := true }, ⟨false, false, true⟩)
  else
    let mE := s.servicesStarted
    let s1 := if s.servicesStarted then
                { s with servicesStarted := false, timeSet := false }
              else s
    if sub32 inp.millis s1.lastWifiRetry > wifiRetryInterval then
      ({ s1 with lastWifiRetry := inp.millis }, ⟨mE, true, false⟩)
    else
      (s1, ⟨mE, false, false⟩)

/-- Station-mode display/emission section (main.cpp:383-394): on each tick of
the display timer, when connected, recompute `timeSet` and, if it holds,
emit one sentence. -/
def stationDisplay (s : SysState) (inp : LoopInput) : SysState × Option String :=
  if sub32 inp.millis s.lastDisplayUpdate > displayInterval then
    if inp.wifiConnected then
      let s2 := { s with lastDisplayUpdate := inp.millis,
                         timeSet := updateTimeStatus inp.time }
      (s2, if s2.timeSet then outputGPS inp.clockOk inp.time else none)
    else
      ({ s with lastDisplayUpdate := inp.millis }, none)
  else
    (s, none)

/-- One invocation of `loop()` (main.cpp:340-396). `none` means the pass
ended in a device restart (`ESP.restart()` from the long-press handler).
`server.handleClient()` is the external web collaborator and touches none of
the core state modelled here. -/
def loop (s : SysState) (inp : LoopInput) : Option (SysState × LoopOutput) :=
  let cr := checkResetButton s inp
  if cr.2 then none
  else
    let s1 := cr.1
    if s1.configMode then
      some (apTick s1 inp, {})
    else
      let p := stationNet s1 inp
      let q := stationDisplay p.1 inp
      some (q.1, { gpsEmit := q.2,
                   wifiBeginCalled := p.2.wifiBegin,
                   configTimeCalled := p.2.svcInit,
                   mdnsBeginCalled := p.2.svcInit,
                   mdnsEndCalled := p.2.mdnsEnd })

/-- The collaborator calls `setup()` makes when choosing the initial mode. -/
structure SetupOutput where
  /-- Whether `startAPMode` ran (`WiFi.softAP`, portal web server). -/
  softAPStarted : Bool
  /-- Whether a station-mode `WiFi.begin(ssid, password)` was issued. -/
  wifiBeginCalled : Bool
deriving DecidableEq, Repr

/-- `setup()` (main.cpp:295-322): the initial global state and mode choice,
as a function of the stored SSID and the boot-time reset-button level. The
other globals start at their C initialisers (main.cpp:49-64). -/
def setup (ssid : String) (resetLow : Bool) : SysState × SetupOutput :=
  if ssid = "" ∨ resetLow then
    ({ configMode := true, timeSet := false, servicesStarted := false,
       lastWifiRetry := 0, lastDisplayUpdate := 0,
       buttonPressed := false, buttonPressStart := 0 },
     { softAPStarted := true, wifiBeginCalled := false })
  else
    ({ configMode := false, timeSet := false, servicesStarted := false,
       lastWifiRetry := 0, lastDisplayUpdate := 0,
       buttonPressed := false, buttonPressStart := 0 },
     { softAPStarted := false, wifiBeginCalled := true })

/-- Iterate `loop` over a list of inputs, collecting the per-pass outputs;
the run stops early if a pass restarts the device. -/
def runLoop (s : SysState) : List LoopInput → List LoopOutput
  | [] => []
  | i :: is =>
    match loop s i with
    | none => []
    | some (s2, o) => o :: runLoop s2 is

/-- Iterate `loop` over a list of inputs, collecting the state after each
pass; the run stops early if a pass restarts the device. -/
def runStates (s : SysState) : List LoopInput → List SysState
  | [] => []
  | i :: is =>
    match loop s i with
    | none => []
    | some (s2, _) => s2 :: runStates s2 is

/-! ## Spec-side descriptions (from the specification's words) -/

/-- Spec-side: a number zero-padded to exactly two decimal digits. -/
def twoDigits (n : Nat) : String :=
  String.mk [Char.ofNat (48 + n / 10), Char.ofNat (48 + n % 10)]

/-- Spec-side: the XOR of every byte of a body, accumulator starting at
zero. -/
def xorBytes (body : List Nat) : Nat := body.foldl (fun a b => Nat.xor a b) 0

/-- Spec-side: an uppercase hexadecimal character (`0`-`9` or `A`-`F`). -/
def isUpperHex (c : Char) : Bool :=
  (48 ≤ c.toNat && c.toNat ≤ 57) || (65 ≤ c.toNat && c.toNat ≤ 70)

/-- Spec-side wire format: the sentence body
`GPRMC,HHMMSS.000,A,0000.0000,N,00000.0000,E,0.0,0.0,DDMMYY,,` with each
time/date field zero-padded to width 2 and the year taken modulo 100. -/
def specGprmcBody (t : Tm) : String :=
  "GPRMC," ++ twoDigits t.tm_hour.toNat ++ twoDigits t.tm_min.toNat ++
  twoDigits t.tm_sec.toNat ++
  ".000,A,0000.0000,N,00000.0000,E,0.0,0.0," ++
  twoDigits t.tm_mday.toNat ++ twoDigits (t.tm_mon + 1).toNat ++
  twoDigits ((t.tm_year + 1900) % 100).toNat ++ ",,"

/-- Spec-side wire format: the full serial line, `CC` being the two-hex-digit
uppercase checksum of the bytes between `$` and `*`. -/
def specGprmcLine (t : Tm) : String :=
  "$" ++ specGprmcBody t ++ "*" ++
  hex2 (xorBytes (strBytes (specGprmcBody t))) ++ "\r\n"

/-! ## Rendering lemmas -/

theorem fmt02_nat : ∀ m : Nat, m < 100 → fmt02 (Int.ofNat m) = twoDigits m := by
  decide

theorem fmt02_toNat (n : Int) (h0 : 0 ≤ n) (h1 : n < 100) :
    fmt02 n = twoDigits n.toNat := by
  obtain ⟨m, rfl⟩ := Int.eq_ofNat_of_zero_le h0
  rw [Int.toNat_ofNat]
  exact fmt02_nat m (by exact_mod_cast h1)

theorem strBytes_append (s t : String) :
    strBytes (s ++ t) = strBytes s ++ strBytes t := by
  simp [strBytes]

theorem strBytes_twoDigits (m : Nat) (h : m < 100) :
    strBytes (twoDigits m) = [48 + m / 10, 48 + m % 10] := by
  have hden : m / 10 < 10 := by omega
  have hmod : m % 10 < 10 := by omega
  have hchar : ∀ d : Nat, d < 10 → (Char.ofNat (48 + d)).toNat = 48 + d := by decide
  simp [strBytes, twoDigits, hchar _ hden, hchar _ hmod]

theorem hex2_length (n : Nat) : (hex2 n).length = 2 := rfl

theorem hexDig_upper : ∀ d : Nat, d < 16 → isUpperHex (hexDig d) = true := by
  decide

theorem hex2_upper (n : Nat) (h : n < 256) :
    ∀ c ∈ (hex2 n).toList, isUpperHex c = true := by
  intro c hc
  have h1 : n / 16 < 16 := by omega
  have h2 : n % 16 < 16 := by omega
  simp [hex2, String.toList] at hc
  rcases hc with rfl | rfl
  · exact hexDig_upper _ h1
  · exact hexDig_upper _ h2

/-! ## Checksum lemmas -/

theorem xor_lt_256 {a b : Nat} (ha : a < 256) (hb : b < 256) :
    Nat.xor a b < 256 := by
  have := Nat.xor_lt_two_pow (n := 8) (by simpa using ha) (by simpa using hb)
  simpa using this

theorem csAccum_lt (l : List Nat) : ∀ acc, acc < 256 → csAccum acc l < 256 := by
  induction l with
  | nil => intro acc h; simpa [csAccum] using h
  | cons b rest ih =>
    intro acc h
    by_cases hb : b = 42
    · simpa [csAccum, hb] using h
    · simpa [csAccum, hb] using ih _ (Nat.mod_lt _ (by omega))

theorem foldl_xor_lt (l : List Nat) :
    ∀ acc, acc < 256 → (∀ b ∈ l, b < 256) →
      l.foldl (fun a b => Nat.xor a b) acc < 256 := by
  induction l with
  | nil => intro acc h _; simpa using h
  | cons b rest ih =>
    intro acc h hb
    simp only [List.foldl_cons]
    exact ih _ (xor_lt_256 h (hb b (by simp))) (fun x hx => hb x (by simp [hx]))

theorem xorBytes_lt (l : List Nat) (h : ∀ b ∈ l, b < 256) : xorBytes l < 256 :=
  foldl_xor_lt l 0 (by omega) h

theorem csAccum_eq_foldl (l : List Nat) :
    ∀ acc, acc < 256 → (∀ b ∈ l, b ≠ 42 ∧ b < 256) →
      csAccum acc l = l.foldl (fun a b => Nat.xor a b) acc := by
  induction l with
  | nil => intro acc _ _; rfl
  | cons b rest ih =>
    intro acc hacc hl
    have hb := hl b (by simp)
    have hxor : Nat.xor acc b < 256 := xor_lt_256 hacc hb.2
    simp only [csAccum, hb.1, if_false, List.foldl_cons]
    rw [Nat.mod_eq_of_lt hxor]
    exact ih _ hxor (fun x hx => hl x (by simp [hx]))

/-- The composition the firmware uses: checksum of `"$" ++ body` equals the
rendered XOR of the body bytes, whenever the body holds no `'*'` byte. -/
theorem calculateChecksum_spec (body : String)
    (h : ∀ b ∈ strBytes body, b ≠ 42 ∧ b < 256) :
    calculateChecksum (strBytes ("$" ++ body)) = hex2 (xorBytes (strBytes body)) := by
  have hsplit : strBytes ("$" ++ body) = 36 :: strBytes body := by
    rw [strBytes_append]; rfl
  unfold calculateChecksum
  rw [hsplit]
  simp only [List.drop_succ_cons, List.drop_zero]
  rw [csAccum_eq_foldl _ 0 (by omega) h]
  rfl

theorem forall_bytes_append {p : Nat → Prop} {s t : String}
    (hs : ∀ b ∈ strBytes s, p b) (ht : ∀ b ∈ strBytes t, p b) :
    ∀ b ∈ strBytes (s ++ t), p b := by
  rw [strBytes_append]
  intro b hb
  rcases List.mem_append.mp hb with h | h
  · exact hs b h
  · exact ht b h

theorem forall_bytes_twoDigits {p : Nat → Prop} (m : Nat) (hm : m < 100)
    (h1 : p (48 + m / 10)) (h2 : p (48 + m % 10)) :
    ∀ b ∈ strBytes (twoDigits m), p b := by
  rw [strBytes_twoDigits m hm]
  intro b hb
  rcases List.mem_cons.mp hb with rfl | hb
  · exact h1
  · rcases List.mem_cons.mp hb with rfl | hb
    · exact h2
    · exact absurd hb (List.not_mem_nil b)

/-- Every byte of the rendered sentence body is a non-`'*'` byte below 256. -/
theorem specBody_bytes (t : Tm)
    (h1 : t.tm_hour.toNat < 100) (h2 : t.tm_min.toNat < 100)
    (h3 : t.tm_sec.toNat < 100) (h4 : t.tm_mday.toNat < 100)
    (h5 : (t.tm_mon + 1).toNat < 100)
    (h6 : ((t.tm_year + 1900) % 100).toNat < 100) :
    ∀ b ∈ strBytes (specGprmcBody t), b ≠ 42 ∧ b < 256 := by
  have lit1 : ∀ x ∈ strBytes "GPRMC,", x ≠ 42 ∧ x < 256 := by decide
  have lit2 : ∀ x ∈ strBytes ".000,A,0000.0000,N,00000.0000,E,0.0,0.0,",
      x ≠ 42 ∧ x < 256 := by decide
  have lit3 : ∀ x ∈ strBytes ",,", x ≠ 42 ∧ x < 256 := by decide
  have dig : ∀ m : Nat, m < 100 → ∀ b ∈ strBytes (twoDigits m), b ≠ 42 ∧ b < 256 := by
    intro m hm
    exact forall_bytes_twoDigits m hm ⟨by omega, by omega⟩ ⟨by omega, by omega⟩
  unfold specGprmcBody
  exact forall_bytes_append (forall_bytes_append (forall_bytes_append
    (forall_bytes_append (forall_bytes_append (forall_bytes_append
      (forall_bytes_append (forall_bytes_append lit1 (dig _ h1)) (dig _ h2))
      (dig _ h3)) lit2) (dig _ h4)) (dig _ h5)) (dig _ h6)) lit3

/-- C2: for every UTC timestamp with hour 0-23, minute 0-59, second 0-59,
day 1-31, month 1-12 (and a year not before 1900, as `gmtime` delivers),
the emitted line is exactly
`$GPRMC,HHMMSS.000,A,0000.0000,N,00000.0000,E,0.0,0.0,DDMMYY,,*CC\r\n`:
time and date digits are the inputs zero-padded to width 2, fractional
seconds are always `000`, the fix flag is always `A`, the position/speed/
course fields are the fixed zero values, the year is rendered modulo 100,
and `CC` is the two-hex-digit uppercase checksum of the bytes between `$`
and `*`. -/
theorem C2_wire_format (t : Tm)
    (hh0 : 0 ≤ t.tm_hour) (hh1 : t.tm_hour ≤ 23)
    (hm0 : 0 ≤ t.tm_min) (hm1 : t.tm_min ≤ 59)
    (hs0 : 0 ≤ t.tm_sec) (hs1 : t.tm_sec ≤ 59)
    (hd0 : 1 ≤ t.tm_mday) (hd1 : t.tm_mday ≤ 31)
    (hmo0 : 1 ≤ t.tm_mon + 1) (hmo1 : t.tm_mon + 1 ≤ 12)
    (hy : 0 ≤ t.tm_year) :
    outputGPS true t = some (specGprmcLine t) ∧
    (hex2 (xorBytes (strBytes (specGprmcBody t)))).length = 2 ∧
    ∀ c ∈ (hex2 (xorBytes (strBytes (specGprmcBody t)))).toList,
      isUpperHex c = true := by
  have hbody : gprmcBody t = specGprmcBody t := by
    unfold gprmcBody specGprmcBody
    rw [Int.tmod_eq_emod (by omega) (by omega),
        fmt02_toNat t.tm_hour hh0 (by omega),
        fmt02_toNat t.tm_min hm0 (by omega),
        fmt02_toNat t.tm_sec hs0 (by omega),
        fmt02_toNat t.tm_mday (by omega) (by omega),
        fmt02_toNat (t.tm_mon + 1) (by omega) (by omega),
        fmt02_toNat ((t.tm_year + 1900) % 100) (by omega) (by omega)]
  have hbytes : ∀ b ∈ strBytes (specGprmcBody t), b ≠ 42 ∧ b < 256 :=
    specBody_bytes t (by omega) (by omega) (by omega) (by omega) (by omega) (by omega)
  have hlt : xorBytes (strBytes (specGprmcBody t)) < 256 :=
    xorBytes_lt _ (fun b hb => (hbytes b hb).2)
  refine ⟨?_, hex2_length _, hex2_upper _ hlt⟩
  have hout : outputGPS true t =
      some ("$" ++ gprmcBody t ++ "*" ++
        calculateChecksum (strBytes ("$" ++ gprmcBody t)) ++ "\r\n") := rfl
  rw [hout, hbody, calculateChecksum_spec _ hbytes]
  rfl

/-- A concrete timestamp: 12:34:56 UTC on 01 Jan 2024 as `gmtime` fields. -/
def wTm : Tm :=
  { tm_sec := 56, tm_min := 34, tm_hour := 12, tm_mday := 1, tm_mon := 0,
    tm_year := 124 }

/-- Witness for C2 at 12:34:56 UTC on 01 Jan 2024. -/
theorem C2_wire_format_witness :
    (0 ≤ wTm.tm_hour ∧ wTm.tm_hour ≤ 23 ∧ 0 ≤ wTm.tm_year) ∧
    outputGPS true wTm = some (specGprmcLine wTm) ∧
    specGprmcLine wTm =
      "$GPRMC,123456.000,A,0000.0000,N,00000.0000,E,0.0,0.0,010124,,*02\r\n" :=
  ⟨by decide,
   (C2_wire_format wTm (by decide) (by decide) (by decide) (by decide)
      (by decide) (by decide) (by decide) (by decide) (by decide) (by decide)
      (by decide)).1,
   by decide⟩

/-! ## Control-loop helper lemmas -/

theorem crb_snd_false (s : SysState) (inp : LoopInput) (h : inp.buttonLow = false) :
    checkResetButton s inp = ({ s with buttonPressed := false }, false) := by
  simp [checkResetButton, h]

theorem crb_preserves (s : SysState) (inp : LoopInput) :
    (checkResetButton s inp).1.configMode = s.configMode ∧
    (checkResetButton s inp).1.timeSet = s.timeSet ∧
    (checkResetButton s inp).1.servicesStarted = s.servicesStarted ∧
    (checkResetButton s inp).1.lastWifiRetry = s.lastWifiRetry ∧
    (checkResetButton s inp).1.lastDisplayUpdate = s.lastDisplayUpdate := by
  by_cases h1 : inp.buttonLow <;> by_cases h2 : s.buttonPressed <;>
    by_cases h3 : sub32 inp.millis s.buttonPressStart ≥ 2000 <;>
    simp [checkResetButton, h1, h2, h3]

theorem apTick_preserves (s : SysState) (inp : LoopInput) :
    (apTick s inp).configMode = s.configMode ∧
    (apTick s inp).servicesStarted = s.servicesStarted ∧
    (apTick s inp).timeSet = s.timeSet ∧
    (apTick s inp).lastWifiRetry = s.lastWifiRetry := by
  by_cases h : sub32 inp.millis s.lastDisplayUpdate > displayInterval <;>
    simp [apTick, h]

theorem stationNet_disc (s : SysState) (inp : LoopInput)
    (hw : inp.wifiConnected = false) :
    (stationNet s inp).2.mdnsEnd = s.servicesStarted ∧
    (stationNet s inp).2.svcInit = false ∧
    (stationNet s inp).2.wifiBegin =
      decide (sub32 inp.millis s.lastWifiRetry > wifiRetryInterval) ∧
    (stationNet s inp).1.servicesStarted = false ∧
    (stationNet s inp).1.timeSet = (if s.servicesStarted then false else s.timeSet) ∧
    (stationNet s inp).1.lastWifiRetry =
      (if sub32 inp.millis s.lastWifiRetry > wifiRetryInterval then inp.millis
       else s.lastWifiRetry) ∧
    (stationNet s inp).1.configMode = s.configMode ∧
    (stationNet s inp).1.lastDisplayUpdate = s.lastDisplayUpdate := by
  by_cases hss : s.servicesStarted <;>
    by_cases hr : sub32 inp.millis s.lastWifiRetry > wifiRetryInterval <;>
    simp [stationNet, hw, hss, hr]

theorem stationNet_conn (s : SysState) (inp : LoopInput)
    (hw : inp.wifiConnected = true) :
    (stationNet s inp).2.mdnsEnd = false ∧
    (stationNet s inp).2.svcInit = !s.servicesStarted ∧
    (stationNet s inp).2.wifiBegin = false ∧
    (stationNet s inp).1.servicesStarted = true ∧
    (stationNet s inp).1.timeSet = s.timeSet ∧
    (stationNet s inp).1.lastWifiRetry = s.lastWifiRetry ∧
    (stationNet s inp).1.configMode = s.configMode ∧
    (stationNet s inp).1.lastDisplayUpdate = s.lastDisplayUpdate := by
  by_cases hss : s.servicesStarted <;> simp [stationNet, hw, hss]

theorem stationDisplay_preserves (s : SysState) (inp : LoopInput) :
    (stationDisplay s inp).1.configMode = s.configMode ∧
    (stationDisplay s inp).1.servicesStarted = s.servicesStarted ∧
    (stationDisplay s inp).1.lastWifiRetry = s.lastWifiRetry := by
  by_cases hd : sub32 inp.millis s.lastDisplayUpdate > displayInterval <;>
    by_cases hw : inp.wifiConnected <;> simp [stationDisplay, hd, hw]

theorem stationDisplay_disc (s : SysState) (inp : LoopInput)
    (hw : inp.wifiConnected = false) :
    (stationDisplay s inp).2 = none ∧
    (stationDisplay s inp).1.timeSet = s.timeSet := by
  by_cases hd : sub32 inp.millis s.lastDisplayUpdate > displayInterval <;>
    simp [stationDisplay, hd, hw]

theorem stationDisplay_emit (s : SysState) (inp : LoopInput)
    (h : (stationDisplay s inp).2 ≠ none) :
    inp.wifiConnected = true ∧ updateTimeStatus inp.time = true ∧
    inp.clockOk = true ∧ (stationDisplay s inp).1.timeSet = true := by
  by_cases hd : sub32 inp.millis s.lastDisplayUpdate > displayInterval <;>
    by_cases hw : inp.wifiConnected <;>
    by_cases ht : updateTimeStatus inp.time <;>
    by_cases hc : inp.clockOk <;>
    simp [stationDisplay, outputGPS, hd, hw, ht, hc] at h ⊢

theorem stationDisplay_clock_fail (s : SysState) (inp : LoopInput)
    (hc : inp.clockOk = false) :
    (stationDisplay s inp).2 = none := by
  by_cases hd : sub32 inp.millis s.lastDisplayUpdate > displayInterval <;>
    by_cases hw : inp.wifiConnected <;>
    by_cases ht : updateTimeStatus inp.time <;>
    simp [stationDisplay, outputGPS, hd, hw, ht, hc]

/-- Inversion of one non-restarting `loop` pass: the intermediate state `s1`
after the button check agrees with `s` on everything the rest of the pass
reads, and the pass either took the config-portal branch or the station
branch. -/
theorem loop_some_inv (s : SysState) (inp : LoopInput) (s2 : SysState)
    (out : LoopOutput) (h : loop s inp = some (s2, out)) :
    ∃ s1 : SysState,
      (s1.configMode = s.configMode ∧ s1.timeSet = s.timeSet ∧
       s1.servicesStarted = s.servicesStarted ∧
       s1.lastWifiRetry = s.lastWifiRetry ∧
       s1.lastDisplayUpdate = s.lastDisplayUpdate) ∧
      ((s1.configMode = true ∧ s2 = apTick s1 inp ∧ out = {}) ∨
       (s1.configMode = false ∧
        s2 = (stationDisplay (stationNet s1 inp).1 inp).1 ∧
        out = { gpsEmit := (stationDisplay (stationNet s1 inp).1 inp).2,
                wifiBeginCalled := (stationNet s1 inp).2.wifiBegin,
                configTimeCalled := (stationNet s1 inp).2.svcInit,
                mdnsBeginCalled := (stationNet s1 inp).2.svcInit,
                mdnsEndCalled := (stationNet s1 inp).2.mdnsEnd })) := by
  unfold loop at h
  rcases hcr : checkResetButton s inp with ⟨s1, b⟩
  rw [hcr] at h
  have hpres := crb_preserves s inp
  rw [hcr] at hpres
  dsimp only at hpres
  dsimp only at h
  cases b with
  | true => simp at h
  | false =>
    simp only [Bool.false_eq_true, if_false] at h
    refine ⟨s1, hpres, ?_⟩
    by_cases hcm : s1.configMode
    · rw [if_pos hcm] at h
      simp only [Option.some.injEq, Prod.mk.injEq] at h
      exact Or.inl ⟨hcm, h.1.symm, h.2.symm⟩
    · rw [if_neg hcm] at h
      simp only [Option.some.injEq, Prod.mk.injEq] at h
      exact Or.inr ⟨by simpa using hcm, h.1.symm, h.2.symm⟩

theorem loop_no_restart (s : SysState) (inp : LoopInput)
    (h : inp.buttonLow = false) :
    ∃ s2 out, loop s inp = some (s2, out) := by
  unfold loop
  rw [crb_snd_false s inp h]
  by_cases hcm : s.configMode
  · refine ⟨apTick { s with buttonPressed := false } inp, {}, ?_⟩
    simp [hcm]
  · refine ⟨(stationDisplay (stationNet { s with buttonPressed := false } inp).1 inp).1,
      { gpsEmit := (stationDisplay (stationNet { s with buttonPressed := false } inp).1 inp).2,
        wifiBeginCalled := (stationNet { s with buttonPressed := false } inp).2.wifiBegin,
        configTimeCalled := (stationNet { s with buttonPressed := false } inp).2.svcInit,
        mdnsBeginCalled := (stationNet { s with buttonPressed := false } inp).2.svcInit,
        mdnsEndCalled := (stationNet { s with buttonPressed := false } inp).2.mdnsEnd }, ?_⟩
    simp [hcm]

theorem runLoop_cons (s : SysState) (i : LoopInput) (is : List LoopInput)
    (s2 : SysState) (o : LoopOutput) (h : loop s i = some (s2, o)) :
    runLoop s (i :: is) = o :: runLoop s2 is := by
  simp [runLoop, h]

theorem runStates_cons (s : SysState) (i : LoopInput) (is : List LoopInput)
    (s2 : SysState) (o : LoopOutput) (h : loop s i = some (s2, o)) :
    runStates s (i :: is) = s2 :: runStates s2 is := by
  simp [runStates, h]

theorem stationNet_preserves (s : SysState) (inp : LoopInput) :
    (stationNet s inp).1.configMode = s.configMode ∧
    (stationNet s inp).1.lastDisplayUpdate = s.lastDisplayUpdate := by
  by_cases hw : inp.wifiConnected <;> by_cases hss : s.servicesStarted <;>
    by_cases hr : sub32 inp.millis s.lastWifiRetry > wifiRetryInterval <;>
    simp [stationNet, hw, hss, hr]

/-- The config-portal flag is never written by `loop`. -/
theorem loop_configMode (s : SysState) (inp : LoopInput) (s2 : SysState)
    (out : LoopOutput) (h : loop s inp = some (s2, out)) :
    s2.configMode = s.configMode := by
  obtain ⟨s1, hpres, hbr | hbr⟩ := loop_some_inv s inp s2 out h
  · rw [hbr.2.1, (apTick_preserves s1 inp).1, hpres.1]
  · rw [hbr.2.1, (stationDisplay_preserves _ inp).1,
        (stationNet_preserves s1 inp).1, hpres.1]

/-- One station-mode pass while the link reports established. -/
theorem loop_conn_step (s : SysState) (inp : LoopInput) (s2 : SysState)
    (out : LoopOutput) (hcm : s.configMode = false) (hw : inp.wifiConnected = true)
    (hl : loop s inp = some (s2, out)) :
    out.configTimeCalled = !s.servicesStarted ∧
    out.mdnsBeginCalled = !s.servicesStarted ∧
    out.wifiBeginCalled = false ∧
    out.mdnsEndCalled = false ∧
    s2.servicesStarted = true ∧
    s2.lastWifiRetry = s.lastWifiRetry := by
  obtain ⟨s1, hpres, hbr | hbr⟩ := loop_some_inv s inp s2 out hl
  · rw [hpres.1, hcm] at hbr
    exact absurd hbr.1 (by simp)
  · have hsn := stationNet_conn s1 inp hw
    have hsd := stationDisplay_preserves (stationNet s1 inp).1 inp
    refine ⟨?_, ?_, ?_, ?_, ?_, ?_⟩
    · rw [hbr.2.2]; dsimp only; rw [hsn.2.1, hpres.2.2.1]
    · rw [hbr.2.2]; dsimp only; rw [hsn.2.1, hpres.2.2.1]
    · rw [hbr.2.2]; dsimp only; rw [hsn.2.2.1]
    · rw [hbr.2.2]; dsimp only; rw [hsn.1]
    · rw [hbr.2.1, hsd.2.1, hsn.2.2.2.1]
    · rw [hbr.2.1, hsd.2.2, hsn.2.2.2.2.2.1, hpres.2.2.2.1]

/-- One station-mode pass while the link reports not-established. -/
theorem loop_disc_step (s : SysState) (inp : LoopInput) (s2 : SysState)
    (out : LoopOutput) (hcm : s.configMode = false)
    (hw : inp.wifiConnected = false) (hl : loop s inp = some (s2, out)) :
    out.mdnsEndCalled = s.servicesStarted ∧
    out.configTimeCalled = false ∧
    out.mdnsBeginCalled = false ∧
    out.gpsEmit = none ∧
    s2.servicesStarted = false ∧
    s2.timeSet = (if s.servicesStarted then false else s.timeSet) ∧
    out.wifiBeginCalled =
      decide (sub32 inp.millis s.lastWifiRetry > wifiRetryInterval) ∧
    s2.lastWifiRetry =
      (if sub32 inp.millis s.lastWifiRetry > wifiRetryInterval then inp.millis
       else s.lastWifiRetry) := by
  obtain ⟨s1, hpres, hbr | hbr⟩ := loop_some_inv s inp s2 out hl
  · rw [hpres.1, hcm] at hbr
    exact absurd hbr.1 (by simp)
  · have hsn := stationNet_disc s1 inp hw
    have hsd := stationDisplay_preserves (stationNet s1 inp).1 inp
    have hsdd := stationDisplay_disc (stationNet s1 inp).1 inp hw
    refine ⟨?_, ?_, ?_, ?_, ?_, ?_, ?_, ?_⟩
    · rw [hbr.2.2]; dsimp only; rw [hsn.1, hpres.2.2.1]
    · rw [hbr.2.2]; dsimp only; rw [hsn.2.1]
    · rw [hbr.2.2]; dsimp only; rw [hsn.2.1]
    · rw [hbr.2.2]; dsimp only; rw [hsdd.1]
    · rw [hbr.2.1, hsd.2.1, hsn.2.2.2.1]
    · rw [hbr.2.1, hsdd.2, hsn.2.2.2.2.1, hpres.2.2.1, hpres.2.1]
    · rw [hbr.2.2]; dsimp only; rw [hsn.2.2.1, hpres.2.2.2.1]
    · rw [hbr.2.1, hsd.2.2, hsn.2.2.2.2.2.1, hpres.2.2.2.1]

/-- While connected with services already running, no one-shot side effect
fires again on any later pass. -/
theorem run_conn_services (s : SysState) (inps : List LoopInput)
    (hcm : s.configMode = false) (hss : s.servicesStarted = true)
    (hin : ∀ i ∈ inps, i.wifiConnected = true ∧ i.buttonLow = false) :
    (runLoop s inps).countP (fun o => o.configTimeCalled) = 0 ∧
    (runLoop s inps).countP (fun o => o.mdnsBeginCalled) = 0 := by
  induction inps generalizing s with
  | nil => simp [runLoop]
  | cons i is ih =>
    have hi := hin i (by simp)
    obtain ⟨s2, out, hl⟩ := loop_no_restart s i hi.2
    rw [runLoop_cons s i is s2 out hl]
    have hstep := loop_conn_step s i s2 out hcm hi.1 hl
    have hrest := ih s2 (by rw [loop_configMode s i s2 out hl]; exact hcm)
      hstep.2.2.2.2.1 (fun j hj => hin j (by simp [hj]))
    simp [List.countP_cons, hstep.1, hstep.2.1, hss, hrest.1, hrest.2]

/-- While disconnected with services already torn down, the teardown side
effect never fires again and nothing is emitted. -/
theorem run_disc_services (s : SysState) (inps : List LoopInput)
    (hcm : s.configMode = false) (hss : s.servicesStarted = false)
    (hin : ∀ i ∈ inps, i.wifiConnected = false ∧ i.buttonLow = false) :
    (runLoop s inps).countP (fun o => o.mdnsEndCalled) = 0 ∧
    ∀ out ∈ runLoop s inps, out.gpsEmit = none := by
  induction inps generalizing s with
  | nil => simp [runLoop]
  | cons i is ih =>
    have hi := hin i (by simp)
    obtain ⟨s2, out, hl⟩ := loop_no_restart s i hi.2
    rw [runLoop_cons s i is s2 out hl]
    have hstep := loop_disc_step s i s2 out hcm hi.1 hl
    have hrest := ih s2 (by rw [loop_configMode s i s2 out hl]; exact hcm)
      hstep.2.2.2.2.1 (fun j hj => hin j (by simp [hj]))
    constructor
    · simp [List.countP_cons, hstep.1, hss, hrest.1]
    · intro o ho
      rcases List.mem_cons.mp ho with rfl | ho
      · exact hstep.2.2.2.1
      · exact hrest.2 o ho

/-! ## Witness fixtures (concrete states and inputs) -/

/-- A freshly booted station-mode state (all globals at their initialisers). -/
def wConnState : SysState :=
  { configMode := false, timeSet := false, servicesStarted := false,
    lastWifiRetry := 0, lastDisplayUpdate := 0, buttonPressed := false,
    buttonPressStart := 0 }

/-- A connected pass at 2000 ms with a valid 2024 clock. -/
def wConnInput : LoopInput :=
  { millis := 2000, wifiConnected := true, clockOk := true, time := wTm,
    buttonLow := false }

/-- The same pass but with `gettimeofday` failing. -/
def wFailInput : LoopInput :=
  { millis := 2000, wifiConnected := true, clockOk := false, time := wTm,
    buttonLow := false }

/-- The state after `loop wConnState wConnInput`. -/
def wConnState2 : SysState :=
  { configMode := false, timeSet := true, servicesStarted := true,
    lastWifiRetry := 0, lastDisplayUpdate := 2000, buttonPressed := false,
    buttonPressStart := 0 }

/-- The output of `loop wConnState wConnInput`. -/
def wConnOut : LoopOutput :=
  { gpsEmit :=
      some "$GPRMC,123456.000,A,0000.0000,N,00000.0000,E,0.0,0.0,010124,,*02\r\n",
    wifiBeginCalled := false, configTimeCalled := true,
    mdnsBeginCalled := true, mdnsEndCalled := false }

/-- The output of `loop wConnState wFailInput` (clock query fails). -/
def wFailOut : LoopOutput :=
  { gpsEmit := none, wifiBeginCalled := false, configTimeCalled := true,
    mdnsBeginCalled := true, mdnsEndCalled := false }

/-- A disconnected pass at `m` milliseconds with a valid clock. -/
def discTick (m : Nat) : LoopInput :=
  { millis := m, wifiConnected := false, clockOk := true, time := wTm,
    buttonLow := false }

/-- The station-mode state `setup` produces for a stored SSID. -/
def bootStation : SysState := (setup "net" false).1

/-- The state after `loop wConnState2 (discTick 3500)` (link lost). -/
def wDiscSt : SysState :=
  { configMode := false, timeSet := false, servicesStarted := false,
    lastWifiRetry := 0, lastDisplayUpdate := 3500, buttonPressed := false,
    buttonPressStart := 0 }

/-- The output of `loop wConnState2 (discTick 3500)`. -/
def wDiscOut : LoopOutput :=
  { gpsEmit := none, wifiBeginCalled := false, configTimeCalled := false,
    mdnsBeginCalled := false, mdnsEndCalled := true }

/-- The state after `loop bootStation (discTick 30001)` (retry fires). -/
def wRetrySt : SysState :=
  { configMode := false, timeSet := false, servicesStarted := false,
    lastWifiRetry := 30001, lastDisplayUpdate := 30001, buttonPressed := false,
    buttonPressStart := 0 }

/-- The output of `loop bootStation (discTick 30001)`. -/
def wRetryOut : LoopOutput :=
  { gpsEmit := none, wifiBeginCalled := true, configTimeCalled := false,
    mdnsBeginCalled := false, mdnsEndCalled := false }

/-- One tick per time unit (1000 ms) with the link down, for 30 units. -/
def ticks30 : List LoopInput := (List.range 30).map fun k => discTick ((k + 1) * 1000)

/-! ## Claims -/

/-- C1: for every state of the control loop, a sentence is written to the GPS
serial output on a pass only if the system is not in the configuration-portal
state, the link status reads connected, and the time-validity flag recomputed
on that pass is true; and from a ConfigPortal state the loop never emits a
sentence no matter how many passes elapse. -/
theorem C1_emission_guard :
    (∀ (s : SysState) (inp : LoopInput) (s2 : SysState) (out : LoopOutput),
       loop s inp = some (s2, out) → out.gpsEmit ≠ none →
       s.configMode = false ∧ inp.wifiConnected = true ∧
       updateTimeStatus inp.time = true ∧ s2.timeSet = true) ∧
    (∀ (s : SysState) (inps : List LoopInput), s.configMode = true →
       ∀ out ∈ runLoop s inps, out.gpsEmit = none) := by
  constructor
  · intro s inp s2 out h hemit
    obtain ⟨s1, hpres, hbr | hbr⟩ := loop_some_inv s inp s2 out h
    · rw [hbr.2.2] at hemit
      simp at hemit
    · rw [hbr.2.2] at hemit
      dsimp only at hemit
      have hsd := stationDisplay_emit _ inp hemit
      refine ⟨by rw [← hpres.1, hbr.1], hsd.1, hsd.2.1, ?_⟩
      rw [hbr.2.1]
      exact hsd.2.2.2
  · intro s inps hcm
    induction inps generalizing s with
    | nil => intro out hout; simp [runLoop] at hout
    | cons i is ih =>
      intro out hout
      rcases hl : loop s i with _ | ⟨s2, o⟩
      · rw [runLoop, hl] at hout
        simp at hout
      · rw [runLoop_cons s i is s2 o hl] at hout
        rcases List.mem_cons.mp hout with rfl | hout
        · obtain ⟨s1, hpres, hbr | hbr⟩ := loop_some_inv s i s2 out hl
          · rw [hbr.2.2]
          · rw [hpres.1, hcm] at hbr
            exact absurd hbr.1 (by simp)
        · exact ih s2 (by rw [loop_configMode s i s2 o hl]; exact hcm) out hout

/-- Witness for C1: a concrete connected pass that does emit, and the guard
conditions it implies. -/
theorem C1_emission_guard_witness :
    (loop wConnState wConnInput = some (wConnState2, wConnOut) ∧
     wConnOut.gpsEmit ≠ none) ∧
    (wConnState.configMode = false ∧ wConnInput.wifiConnected = true ∧
     updateTimeStatus wConnInput.time = true ∧ wConnState2.timeSet = true) :=
  ⟨⟨by decide, by decide⟩,
   C1_emission_guard.1 wConnState wConnInput wConnState2 wConnOut
     (by decide) (by decide)⟩

/-- C3 counterexample: feeding the single delimiter byte `'*'` (42) as the
sentence body, the checksum function stops before it and returns `"00"`,
not the rendered XOR `"2A"` of the body's bytes; so the claim's equation
does not hold for every byte sequence. -/
theorem C3_counterexample :
    calculateChecksum [36, 42] = "00" ∧ hex2 (xorBytes [42]) = "2A" ∧
    calculateChecksum [36, 42] ≠ hex2 (xorBytes [42]) := by decide

/-- C3 (amended): for every byte sequence given as the sentence body that
contains no `'*'` byte, the checksum function returns the XOR of every byte
of the body (accumulator starting at zero) rendered as exactly two uppercase
hexadecimal characters (the two-hex-uppercase shape holds for every body);
it is deterministic, and for the empty body it returns `"00"`. -/
theorem C3_checksum_props :
    (∀ body : List Nat, (∀ b ∈ body, b < 256) → 42 ∉ body →
       calculateChecksum (36 :: body) = hex2 (xorBytes body)) ∧
    (∀ body : List Nat, (calculateChecksum (36 :: body)).length = 2 ∧
       ∀ c ∈ (calculateChecksum (36 :: body)).toList, isUpperHex c = true) ∧
    (∀ body : List Nat,
       calculateChecksum (36 :: body) = calculateChecksum (36 :: body)) ∧
    calculateChecksum [36] = "00" := by
  refine ⟨?_, ?_, fun body => rfl, by decide⟩
  · intro body hlt hstar
    have h : ∀ b ∈ body, b ≠ 42 ∧ b < 256 :=
      fun b hb => ⟨fun e => hstar (e ▸ hb), hlt b hb⟩
    unfold calculateChecksum
    simp only [List.drop_succ_cons, List.drop_zero]
    rw [csAccum_eq_foldl _ 0 (by omega) h]
    rfl
  · intro body
    refine ⟨hex2_length _, ?_⟩
    unfold calculateChecksum
    simp only [List.drop_succ_cons, List.drop_zero]
    exact hex2_upper _ (csAccum_lt _ 0 (by omega))

/-- Witness for C3 at the body `"GP"` (bytes 71, 80). -/
theorem C3_checksum_witness :
    calculateChecksum (36 :: [71, 80]) = hex2 (xorBytes [71, 80]) :=
  C3_checksum_props.1 [71, 80] (by decide) (by decide)

/-- C4 counterexample: booting into station mode with the link down and the
loop ticking once per time unit (1000 ms), after 30 full time units — so in
particular at 30 time units — not a single connection attempt has been
issued, because the code requires strictly more than 30000 ms to elapse;
this contradicts "at 30 time units exactly one new connection attempt is
issued". -/
theorem C4_retry_counterexample :
    (runLoop bootStation ticks30).countP (fun o => o.wifiBeginCalled) = 0 ∧
    (runLoop bootStation ticks30).length = 30 := by decide

/-- C4 (amended): while in station mode with the link not established, a
pass issues a new non-blocking connection attempt exactly when strictly more
than the 30000 ms retry interval has elapsed (in 32-bit `millis`
arithmetic) since the last attempt timestamp; the attempt re-arms the retry
timer to the current time, and a pass that does not attempt leaves the
timer unchanged. In particular, after 29 time units no retry has been
issued, at exactly 30 time units still none, and the first pass strictly
after 30 time units issues exactly one. -/
theorem C4_retry_amended :
    ∀ (s : SysState) (inp : LoopInput) (s2 : SysState) (out : LoopOutput),
      s.configMode = false → inp.wifiConnected = false →
      loop s inp = some (s2, out) →
      (out.wifiBeginCalled = true ↔
        sub32 inp.millis s.lastWifiRetry > wifiRetryInterval) ∧
      (out.wifiBeginCalled = true → s2.lastWifiRetry = inp.millis) ∧
      (out.wifiBeginCalled = false → s2.lastWifiRetry = s.lastWifiRetry) := by
  intro s inp s2 out hcm hw hl
  have hstep := loop_disc_step s inp s2 out hcm hw hl
  by_cases hr : sub32 inp.millis s.lastWifiRetry > wifiRetryInterval
  · refine ⟨by simp [hstep.2.2.2.2.2.2.1, hr], fun _ => ?_, fun hf => ?_⟩
    · rw [hstep.2.2.2.2.2.2.2, if_pos hr]
    · rw [hstep.2.2.2.2.2.2.1] at hf
      simp [hr] at hf
  · refine ⟨by simp [hstep.2.2.2.2.2.2.1, hr], fun ht => ?_, fun _ => ?_⟩
    · rw [hstep.2.2.2.2.2.2.1] at ht
      simp [hr] at ht
    · rw [hstep.2.2.2.2.2.2.2, if_neg hr]

/-- Witness for C4: on a pass strictly after 30 time units from boot
(here at 30001 ms), the attempt is issued. -/
theorem C4_retry_witness : wRetryOut.wifiBeginCalled = true :=
  (C4_retry_amended bootStation (discTick 30001) wRetrySt wRetryOut
    (by decide) (by decide) (by decide)).1.mpr (by decide)

/-- C5: on a station-mode pass with the link established, the one-shot side
effects (NTP sync request via `configTime` and mDNS registration) fire iff
services were not already running — so exactly once on the
Connecting-to-Connected transition — and over any nonempty run of connected
passes starting with services down they fire exactly once. -/
theorem C5_connect_oneshot :
    (∀ (s : SysState) (inp : LoopInput) (s2 : SysState) (out : LoopOutput),
       s.configMode = false → inp.wifiConnected = true →
       loop s inp = some (s2, out) →
       out.configTimeCalled = !s.servicesStarted ∧
       out.mdnsBeginCalled = !s.servicesStarted ∧
       s2.servicesStarted = true) ∧
    (∀ (s : SysState) (inps : List LoopInput), s.configMode = false →
       s.servicesStarted = false →
       (∀ i ∈ inps, i.wifiConnected = true ∧ i.buttonLow = false) →
       inps ≠ [] →
       (runLoop s inps).countP (fun o => o.configTimeCalled) = 1 ∧
       (runLoop s inps).countP (fun o => o.mdnsBeginCalled) = 1) := by
  constructor
  · intro s inp s2 out hcm hw hl
    have hstep := loop_conn_step s inp s2 out hcm hw hl
    exact ⟨hstep.1, hstep.2.1, hstep.2.2.2.2.1⟩
  · intro s inps hcm hss hin hne
    cases inps with
    | nil => exact absurd rfl hne
    | cons i is =>
      have hi := hin i (by simp)
      obtain ⟨s2, out, hl⟩ := loop_no_restart s i hi.2
      rw [runLoop_cons s i is s2 out hl]
      have hstep := loop_conn_step s i s2 out hcm hi.1 hl
      have hrest := run_conn_services s2 is
        (by rw [loop_configMode s i s2 out hl]; exact hcm)
        hstep.2.2.2.2.1 (fun j hj => hin j (by simp [hj]))
      simp [List.countP_cons, hstep.1, hstep.2.1, hss, hrest.1, hrest.2]

/-- Witness for C5: the concrete connected pass from the fixtures fires both
one-shot effects. -/
theorem C5_connect_oneshot_witness :
    wConnOut.configTimeCalled = !wConnState.servicesStarted ∧
    wConnOut.mdnsBeginCalled = !wConnState.servicesStarted ∧
    wConnState2.servicesStarted = true :=
  C5_connect_oneshot.1 wConnState wConnInput wConnState2 wConnOut
    (by decide) (by decide) (by decide)

/-- C6: on the station-mode pass where the link is first observed lost with
services running, the side effects fire exactly once — mDNS registration is
withdrawn and the time-validity flag is forced false on that same pass — and
no sentence is emitted on that pass; over any nonempty run of disconnected
passes the withdrawal happens exactly once and no sentence is ever
emitted. -/
theorem C6_disconnect_oneshot :
    (∀ (s : SysState) (inp : LoopInput) (s2 : SysState) (out : LoopOutput),
       s.configMode = false → s.servicesStarted = true →
       inp.wifiConnected = false → loop s inp = some (s2, out) →
       out.mdnsEndCalled = true ∧ s2.timeSet = false ∧
       s2.servicesStarted = false ∧ out.gpsEmit = none) ∧
    (∀ (s : SysState) (inps : List LoopInput), s.configMode = false →
       s.servicesStarted = true →
       (∀ i ∈ inps, i.wifiConnected = false ∧ i.buttonLow = false) →
       inps ≠ [] →
       (runLoop s inps).countP (fun o => o.mdnsEndCalled) = 1 ∧
       ∀ out ∈ runLoop s inps, out.gpsEmit = none) := by
  constructor
  · intro s inp s2 out hcm hss hw hl
    have hstep := loop_disc_step s inp s2 out hcm hw hl
    refine ⟨by rw [hstep.1, hss], ?_, hstep.2.2.2.2.1, hstep.2.2.2.1⟩
    rw [hstep.2.2.2.2.2.1, hss, if_pos rfl]
  · intro s inps hcm hss hin hne
    cases inps with
    | nil => exact absurd rfl hne
    | cons i is =>
      have hi := hin i (by simp)
      obtain ⟨s2, out, hl⟩ := loop_no_restart s i hi.2
      rw [runLoop_cons s i is s2 out hl]
      have hstep := loop_disc_step s i s2 out hcm hi.1 hl
      have hrest := run_disc_services s2 is
        (by rw [loop_configMode s i s2 out hl]; exact hcm)
        hstep.2.2.2.2.1 (fun j hj => hin j (by simp [hj]))
      constructor
      · simp [List.countP_cons, hstep.1, hss, hrest.1]
      · intro o ho
        rcases List.mem_cons.mp ho with rfl | ho
        · exact hstep.2.2.2.1
        · exact hrest.2 o ho

/-- Witness for C6: the concrete link-loss pass from the fixtures. -/
theorem C6_disconnect_oneshot_witness :
    wDiscOut.mdnsEndCalled = true ∧ wDiscSt.timeSet = false ∧
    wDiscSt.servicesStarted = false ∧ wDiscOut.gpsEmit = none :=
  C6_disconnect_oneshot.1 wConnState2 (discTick 3500) wDiscSt wDiscOut
    (by decide) (by decide) (by decide) (by decide)

/-- C7: the control loop never changes the config-portal flag: it cannot
transition into ConfigPortal (nor out of it); in particular from any
station-mode state, every state reached by any run of loop passes is still
not in ConfigPortal, whatever the connection observations. -/
theorem C7_no_portal_reentry :
    (∀ (s : SysState) (inp : LoopInput) (s2 : SysState) (out : LoopOutput),
       loop s inp = some (s2, out) → s2.configMode = s.configMode) ∧
    (∀ (s : SysState) (inps : List LoopInput), s.configMode = false →
       ∀ s2 ∈ runStates s inps, s2.configMode = false) := by
  refine ⟨loop_configMode, ?_⟩
  intro s inps hcm
  induction inps generalizing s with
  | nil => intro s2 h; simp [runStates] at h
  | cons i is ih =>
    intro s2 h
    rcases hl : loop s i with _ | ⟨sn, o⟩
    · rw [runStates, hl] at h
      simp at h
    · rw [runStates_cons s i is sn o hl] at h
      rcases List.mem_cons.mp h with rfl | h
      · rw [loop_configMode s i s2 o hl]
        exact hcm
      · exact ih sn (by rw [loop_configMode s i sn o hl]; exact hcm) s2 h

/-- Witness for C7: a concrete disconnected station-mode pass preserves the
flag. -/
theorem C7_no_portal_reentry_witness : wDiscSt.configMode = wConnState2.configMode :=
  C7_no_portal_reentry.1 wConnState2 (discTick 3500) wDiscSt wDiscOut (by decide)

/-- The `gmtime` fields of a clock reading in year `y` (the code reads only
`tm_year`, stored as years since 1900). -/
def tmAtYear (y : Int) : Tm :=
  { tm_sec := 0, tm_min := 0, tm_hour := 0, tm_mday := 1, tm_mon := 0,
    tm_year := y - 1900 }

/-- C8: for every integer year, the time-validity predicate holds iff the year
is at least 2020; in particular it is false for 2019 and true for 2020 and
2099. -/
theorem C8_time_validity :
    (∀ y : Int, updateTimeStatus (tmAtYear y) = true ↔ 2020 ≤ y) ∧
    updateTimeStatus (tmAtYear 2019) = false ∧
    updateTimeStatus (tmAtYear 2020) = true ∧
    updateTimeStatus (tmAtYear 2099) = true := by
  refine ⟨?_, by decide, by decide, by decide⟩
  intro y
  simp only [updateTimeStatus, tmAtYear, decide_eq_true_eq, ge_iff_le]
  omega

/-- C9: at startup the initial state is ConfigPortal (AP mode started) iff the
stored SSID is empty or the reset-request input is asserted at boot;
otherwise station mode begins a connection attempt with the stored
credentials. -/
theorem C9_initial_state :
    ∀ (ssid : String) (resetLow : Bool),
      ((setup ssid resetLow).1.configMode = true ↔ (ssid = "" ∨ resetLow = true)) ∧
      (setup ssid resetLow).2.softAPStarted = (setup ssid resetLow).1.configMode ∧
      (setup ssid resetLow).2.wifiBeginCalled = !(setup ssid resetLow).1.configMode ∧
      (setup ssid resetLow).1.timeSet = false ∧
      (setup ssid resetLow).1.servicesStarted = false := by
  intro ssid rst
  by_cases h : ssid = "" ∨ rst = true
  · simp [setup, h]
  · simp [setup, h]

/-- C10: if the clock query fails on a pass, `outputGPS` returns immediately
with nothing written to either serial output (it mutates no state by
construction), and the loop emits no sentence on that pass. -/
theorem C10_clock_failure :
    (∀ t : Tm, outputGPS false t = none) ∧
    (∀ (s : SysState) (inp : LoopInput) (s2 : SysState) (out : LoopOutput),
       inp.clockOk = false → loop s inp = some (s2, out) →
       out.gpsEmit = none) := by
  refine ⟨fun t => rfl, ?_⟩
  intro s inp s2 out hc h
  obtain ⟨s1, hpres, hbr | hbr⟩ := loop_some_inv s inp s2 out h
  · rw [hbr.2.2]
  · rw [hbr.2.2]
    dsimp only
    exact stationDisplay_clock_fail _ inp hc

/-- Witness for C10: the concrete failing-clock pass from the fixtures. -/
theorem C10_clock_failure_witness : wFailOut.gpsEmit = none :=
  C10_clock_failure.2 wConnState wFailInput wConnState2 wFailOut
    (by decide) (by decide)

end NixieGPS
